import Mathlib

/-!
Verification of the cutoff/classification engine of the async-orders
dashboard (`src/src/App.jsx`).

Shallow embedding conventions:

* An instant is an `Int` counting minutes on the business-timezone (fixed
  UTC+8, "PHT") clock since a reference epoch; the epoch is chosen so that
  day number 0 is a Sunday, so the weekday of a day number `d` is
  `d.emod 7` with `0` denoting Sunday (`phtNow.getDay()` in the source).
  One calendar day is 1440 minutes, and `t / 1440` (euclidean division,
  which for a positive divisor is floor division) is the calendar date
  (day number) of the instant `t`, matching how the JavaScript `Date`
  maps an instant to its local calendar date.
* A calendar date (`preferred_delivery_date`, `todayPHT`,
  `deliveryDateOnly`) is its day number, an `Int`.
* A timestamp field that is missing or unparseable is `none`: in the
  source such a field becomes an invalid `Date` whose comparisons are all
  `false` (`NaN` semantics), and the embedding reproduces exactly the
  branches those comparisons select.
* The source's `getTileCounts` reads the wall clock once
  (`const now = new Date()`) and derives every other quantity from that
  single sample; the embedding passes that sample as the explicit
  parameter `now`. Likewise for `isOverdue`.
-/

/-- Per-order operational status, as named by the spec (the tile the
source increments for the order: `overdue`, `shipToday`, `scheduled`,
`newOrders`). -/
inductive Status where
  | overdue
  | dueToday
  | scheduled
  | newlyApproved
  deriving DecidableEq

/-- Normalized order record (`approvedOrders` elements in the source):
creation instant `created_at`, optional approval instant `approved_at`,
optional customer-chosen delivery date `preferred_delivery_date` (a
calendar date, i.e. a day number), and the destination flag
`is_provincial`. `none` in a timestamp field models a missing or invalid
value. -/
structure Order where
  id : Nat
  created_at : Option Int
  approved_at : Option Int
  preferred_delivery_date : Option Int
  is_provincial : Bool
  deriving DecidableEq

/-- The four mutable counters of the `getTileCounts` loop. -/
structure Tally where
  shipToday : Nat
  overdue : Nat
  scheduled : Nat
  newOrders : Nat
  deriving DecidableEq

/-- The record returned by `getTileCounts` in the source. -/
structure TileCounts where
  shipToday : Nat
  overdue : Nat
  scheduled : Nat
  newOrders : Nat
  pending : Nat
  deriving DecidableEq

/-- Calendar date (day number) of an instant on the business-timezone
clock: `new Date(phtNow.getFullYear(), phtNow.getMonth(), phtNow.getDate())`
in the source, here as euclidean (= floor, divisor positive) division by
the 1440 minutes of a day. -/
def phtDayOf (t : Int) : Int := t / 1440

/-- Weekday of an instant (`phtNow.getDay()` in the source): 0 denotes
Sunday under the epoch convention. -/
def phtDayOfWeek (t : Int) : Int := Int.emod (phtDayOf t) 7

/-- Cutoff time-of-day in minutes: 12:00 for provincial destinations,
15:00 for metro (`today12NN` / `today3PM` and the
`isProvincial ? ... : ...` selections in the source). -/
def cutoffMinutes (isProvincial : Bool) : Int :=
  if isProvincial then 12 * 60 else 15 * 60

/-- The `getEffectiveApprovalDate` helper of the source: the approval
timestamp when it is present and strictly later than the creation
timestamp, otherwise the creation timestamp.  A present-but-invalid
`approved_at` compares like `NaN`, so it also falls back to
`created_at`; the embedding folds that case into `none`. -/
def getEffectiveApprovalDate (o : Order) : Option Int :=
  match o.approved_at, o.created_at with
  | some a, some c => if c < a then some a else some c
  | _, _ => o.created_at

/-- Per-order branch of the `getTileCounts` loop body, read as the status
whose counters the branch increments.  With a delivery date: past date is
overdue, today's date is overdue exactly when `now` is strictly past
today's cutoff, a future date is scheduled.  Without one: effective
approval before yesterday's cutoff is overdue, before today's cutoff is
due today, otherwise newly approved; an invalid effective timestamp makes
both comparisons false and lands in newly approved. -/
def statusOf (o : Order) (now : Int) : Status :=
  match o.preferred_delivery_date with
  | some d =>
      if d < phtDayOf now then Status.overdue
      else if d = phtDayOf now then
        if phtDayOf now * 1440 + cutoffMinutes o.is_provincial < now then Status.overdue
        else Status.dueToday
      else Status.scheduled
  | none =>
      match getEffectiveApprovalDate o with
      | none => Status.newlyApproved
      | some a =>
          if a < (phtDayOf now - 1) * 1440 + cutoffMinutes o.is_provincial then Status.overdue
          else if a < phtDayOf now * 1440 + cutoffMinutes o.is_provincial then Status.dueToday
          else Status.newlyApproved

/-- Per-order classification including the Sunday guard of
`getTileCounts` (spec §4.3 step 1: on a Sunday the status is undefined
and the order is excluded from all counts, modelled as `none`). -/
def classify (o : Order) (now : Int) : Option Status :=
  if phtDayOfWeek now = 0 then none else some (statusOf o now)

/-- The `getTileCounts` loop over the order list, accumulating the four
counters exactly as the source's branches do.  Note that an order with a
past delivery date increments `overdue` and `shipToday` both, and an
order with today's delivery date always increments `shipToday`. -/
def countOrders (now : Int) : List Order → Tally
  | [] => ⟨0, 0, 0, 0⟩
  | o :: rest =>
      let t := countOrders now rest
      match o.preferred_delivery_date with
      | some d =>
          if d < phtDayOf now then ⟨t.shipToday + 1, t.overdue + 1, t.scheduled, t.newOrders⟩
          else if d = phtDayOf now then
            if phtDayOf now * 1440 + cutoffMinutes o.is_provincial < now then
              ⟨t.shipToday + 1, t.overdue + 1, t.scheduled, t.newOrders⟩
            else ⟨t.shipToday + 1, t.overdue, t.scheduled, t.newOrders⟩
          else ⟨t.shipToday, t.overdue, t.scheduled + 1, t.newOrders⟩
      | none =>
          match getEffectiveApprovalDate o with
          | none => ⟨t.shipToday, t.overdue, t.scheduled, t.newOrders + 1⟩
          | some a =>
              if a < (phtDayOf now - 1) * 1440 + cutoffMinutes o.is_provincial then
                ⟨t.shipToday + 1, t.overdue + 1, t.scheduled, t.newOrders⟩
              else if a < phtDayOf now * 1440 + cutoffMinutes o.is_provincial then
                ⟨t.shipToday + 1, t.overdue, t.scheduled, t.newOrders⟩
              else ⟨t.shipToday, t.overdue, t.scheduled, t.newOrders + 1⟩

/-- The `getTileCounts` function of the source: all-zero on a Sunday,
otherwise the loop counters with `pending = shipToday + scheduled +
newOrders`. -/
def getTileCounts (orders : List Order) (now : Int) : TileCounts :=
  if phtDayOfWeek now = 0 then ⟨0, 0, 0, 0, 0⟩
  else
    let t := countOrders now orders
    ⟨t.shipToday, t.overdue, t.scheduled, t.newOrders,
      t.shipToday + t.scheduled + t.newOrders⟩

/-- The `isOverdue` list-filter predicate of the source.  It contains no
Sunday guard. -/
def isOverdue (o : Order) (now : Int) : Bool :=
  match o.preferred_delivery_date with
  | some d =>
      if d < phtDayOf now then true
      else if d = phtDayOf now then
        decide (phtDayOf now * 1440 + cutoffMinutes o.is_provincial < now)
      else false
  | none =>
      match getEffectiveApprovalDate o with
      | none => false
      | some a => decide (a < (phtDayOf now - 1) * 1440 + cutoffMinutes o.is_provincial)

/-- The `overdueCount` badge of the source:
`approvedOrders.filter(o => isOverdue(o)).length`. -/
def overdueCount (orders : List Order) (now : Int) : Nat :=
  (orders.filter (fun o => isOverdue o now)).length

/-- Counter increments contributed by one order of each status: an
overdue order increments `shipToday` as well, in every overdue branch of
the source loop. -/
def statusTally : Status → Tally
  | Status.overdue => ⟨1, 1, 0, 0⟩
  | Status.dueToday => ⟨1, 0, 0, 0⟩
  | Status.scheduled => ⟨0, 0, 1, 0⟩
  | Status.newlyApproved => ⟨0, 0, 0, 1⟩

/-- Componentwise sum of tallies. -/
def Tally.add (a b : Tally) : Tally :=
  ⟨a.shipToday + b.shipToday, a.overdue + b.overdue,
    a.scheduled + b.scheduled, a.newOrders + b.newOrders⟩

theorem countOrders_cons (now : Int) (o : Order) (l : List Order) :
    countOrders now (o :: l) =
      Tally.add (countOrders now l) (statusTally (statusOf o now)) := by
  cases hp : o.preferred_delivery_date with
  | some d =>
      by_cases h1 : d < phtDayOf now
      · simp [countOrders, statusOf, hp, h1, statusTally, Tally.add]
      · by_cases h2 : d = phtDayOf now
        · by_cases h3 : phtDayOf now * 1440 + cutoffMinutes o.is_provincial < now
          · simp [countOrders, statusOf, hp, h1, h2, h3, statusTally, Tally.add]
          · simp [countOrders, statusOf, hp, h1, h2, h3, statusTally, Tally.add]
        · simp [countOrders, statusOf, hp, h1, h2, statusTally, Tally.add]
  | none =>
      cases he : getEffectiveApprovalDate o with
      | none => simp [countOrders, statusOf, hp, he, statusTally, Tally.add]
      | some a =>
          by_cases h1 : a < (phtDayOf now - 1) * 1440 + cutoffMinutes o.is_provincial
          · simp [countOrders, statusOf, hp, he, h1, statusTally, Tally.add]
          · by_cases h2 : a < phtDayOf now * 1440 + cutoffMinutes o.is_provincial
            · simp [countOrders, statusOf, hp, he, h1, h2, statusTally, Tally.add]
            · simp [countOrders, statusOf, hp, he, h1, h2, statusTally, Tally.add]

theorem countOrders_length (now : Int) (l : List Order) :
    (countOrders now l).shipToday + (countOrders now l).scheduled +
      (countOrders now l).newOrders = l.length := by
  induction l with
  | nil => rfl
  | cons o rest ih =>
      rw [countOrders_cons]
      cases statusOf o now <;> simp [statusTally, Tally.add] <;> omega

theorem isOverdue_iff_statusOf (o : Order) (now : Int) :
    isOverdue o now = true ↔ statusOf o now = Status.overdue := by
  cases hp : o.preferred_delivery_date with
  | some d =>
      by_cases h1 : d < phtDayOf now
      · simp [isOverdue, statusOf, hp, h1]
      · by_cases h2 : d = phtDayOf now
        · by_cases h3 : phtDayOf now * 1440 + cutoffMinutes o.is_provincial < now
          · simp [isOverdue, statusOf, hp, h1, h2, h3]
          · simp [isOverdue, statusOf, hp, h1, h2, h3]
        · simp [isOverdue, statusOf, hp, h1, h2]
  | none =>
      cases he : getEffectiveApprovalDate o with
      | none => simp [isOverdue, statusOf, hp, he]
      | some a =>
          by_cases h1 : a < (phtDayOf now - 1) * 1440 + cutoffMinutes o.is_provincial
          · simp [isOverdue, statusOf, hp, he, h1]
          · by_cases h2 : a < phtDayOf now * 1440 + cutoffMinutes o.is_provincial
            · simp [isOverdue, statusOf, hp, he, h1, h2]
            · simp [isOverdue, statusOf, hp, he, h1, h2]

example : statusOf ⟨1, some 0, none, some 1, false⟩ 3000 = Status.overdue := by decide

example : getTileCounts [⟨1, some 0, none, some 1, false⟩] 3000 = ⟨1, 1, 0, 0, 1⟩ := by decide

example : phtDayOf (-1) = -1 := by decide

/-- Claim C3: on a now whose business-timezone weekday is Sunday, the
aggregate counts are all zero regardless of the order list. -/
theorem c3_sunday_all_zero (orders : List Order) (now : Int)
    (h : phtDayOfWeek now = 0) :
    getTileCounts orders now = ⟨0, 0, 0, 0, 0⟩ := by
  simp [getTileCounts, h]

theorem c3_witness :
    getTileCounts [⟨1, some 100, some 200, none, true⟩] 0 = ⟨0, 0, 0, 0, 0⟩ :=
  c3_sunday_all_zero _ 0 (by decide)

/-- Claim C6: the effective approval instant is the approval timestamp
exactly when it is present and strictly later than the creation
timestamp; when the approval timestamp is absent, equal to, or earlier
than the creation timestamp, or the creation timestamp is invalid, it is
the creation timestamp. -/
theorem c6_effective_approval (o : Order) :
    (∀ a c : Int, o.approved_at = some a → o.created_at = some c → c < a →
        getEffectiveApprovalDate o = some a) ∧
    (∀ a c : Int, o.approved_at = some a → o.created_at = some c → ¬ c < a →
        getEffectiveApprovalDate o = o.created_at) ∧
    (o.approved_at = none → getEffectiveApprovalDate o = o.created_at) ∧
    (o.created_at = none → getEffectiveApprovalDate o = o.created_at) := by
  refine ⟨?_, ?_, ?_, ?_⟩
  · intro a c ha hc h
    simp [getEffectiveApprovalDate, ha, hc, h]
  · intro a c ha hc h
    simp [getEffectiveApprovalDate, ha, hc, h]
  · intro ha
    cases hc : o.created_at <;> simp [getEffectiveApprovalDate, ha, hc]
  · intro hc
    cases ha : o.approved_at <;> simp [getEffectiveApprovalDate, ha, hc]

theorem c6_witness :
    getEffectiveApprovalDate ⟨1, some 5, some 10, none, false⟩ = some 10 :=
  (c6_effective_approval ⟨1, some 5, some 10, none, false⟩).1 10 5 rfl rfl (by decide)

/-- Claim C7: for every order list and every now, `pending` equals
`shipToday + scheduled + newOrders`, and no order contributes more than
once to `pending` (it is bounded by the list length). -/
theorem c7_pending_sum (orders : List Order) (now : Int) :
    (getTileCounts orders now).pending =
      (getTileCounts orders now).shipToday + (getTileCounts orders now).scheduled +
        (getTileCounts orders now).newOrders ∧
    (getTileCounts orders now).pending ≤ orders.length := by
  by_cases h : phtDayOfWeek now = 0
  · simp [getTileCounts, h]
  · have hs := countOrders_length now orders
    constructor
    · simp [getTileCounts, h]
    · simp [getTileCounts, h]
      omega

/-- Claim C9: the engine is deterministic in its inputs; the embedding
threads the single wall-clock sample of the source as the explicit `now`
parameter, and identical order lists with an identical now yield
identical counts, identical per-order classifications, and identical
filter-predicate values. -/
theorem c9_deterministic (orders1 orders2 : List Order) (now1 now2 : Int)
    (ho : orders1 = orders2) (hn : now1 = now2) :
    getTileCounts orders1 now1 = getTileCounts orders2 now2 ∧
    (∀ o : Order, classify o now1 = classify o now2) ∧
    (∀ o : Order, isOverdue o now1 = isOverdue o now2) := by
  subst ho; subst hn
  exact ⟨rfl, fun _ => rfl, fun _ => rfl⟩

theorem c9_witness :
    getTileCounts [⟨1, some 100, none, none, false⟩] 3000 =
      getTileCounts [⟨1, some 100, none, none, false⟩] 3000 :=
  (c9_deterministic [⟨1, some 100, none, none, false⟩]
    [⟨1, some 100, none, none, false⟩] 3000 3000 rfl rfl).1

/-- Claim C1 counterexample: an order whose delivery date (day 1) is
strictly before today (day 2, a Tuesday under the epoch convention) is
classified Overdue and counted in `overdue`, but it is NOT excluded from
the due-today tile: `shipToday` is 1, not 0, for the singleton list. -/
theorem c1_counterexample :
    classify ⟨1, some 0, none, some 1, false⟩ 3000 = some Status.overdue ∧
    (getTileCounts [⟨1, some 0, none, some 1, false⟩] 3000).overdue = 1 ∧
    ¬ (getTileCounts [⟨1, some 0, none, some 1, false⟩] 3000).shipToday = 0 := by
  decide

/-- Claim C1 (amended): on a non-Sunday now, an order whose preferred
delivery date is strictly before today is classified Overdue and is
included in BOTH the `overdue` count and the due-today (`shipToday`)
count. -/
theorem c1_past_delivery_in_both_counts (o : Order) (l : List Order) (now d : Int)
    (hsun : phtDayOfWeek now ≠ 0) (hd : o.preferred_delivery_date = some d)
    (hlt : d < phtDayOf now) :
    classify o now = some Status.overdue ∧
    (getTileCounts (o :: l) now).overdue = (getTileCounts l now).overdue + 1 ∧
    (getTileCounts (o :: l) now).shipToday = (getTileCounts l now).shipToday + 1 := by
  have hst : statusOf o now = Status.overdue := by simp [statusOf, hd, hlt]
  refine ⟨by simp [classify, hsun, hst], ?_, ?_⟩ <;>
    simp [getTileCounts, hsun, countOrders_cons, hst, statusTally, Tally.add]

theorem c1_witness :
    classify ⟨1, some 0, none, some 1, false⟩ 3000 = some Status.overdue ∧
    (getTileCounts [⟨1, some 0, none, some 1, false⟩] 3000).overdue =
      (getTileCounts [] 3000).overdue + 1 ∧
    (getTileCounts [⟨1, some 0, none, some 1, false⟩] 3000).shipToday =
      (getTileCounts [] 3000).shipToday + 1 :=
  c1_past_delivery_in_both_counts ⟨1, some 0, none, some 1, false⟩ [] 3000 1
    (by decide) rfl (by decide)

/-- Claim C2 counterexample: at a Sunday now (instant 0 is on day 0, a
Sunday), an order with a past delivery date satisfies the filter
predicate `isOverdue`, yet the classification assigns it no status
(`classify` is `none`: the order is excluded from all counts, and the
aggregate overdue count is 0), so the two do not agree at every now. -/
theorem c2_counterexample :
    isOverdue ⟨2, some 0, none, some (-1), false⟩ 0 = true ∧
    classify ⟨2, some 0, none, some (-1), false⟩ 0 = none ∧
    (getTileCounts [⟨2, some 0, none, some (-1), false⟩] 0).overdue = 0 := by
  decide

/-- Claim C2 (amended): for every order and every now whose
business-timezone weekday is not Sunday, the filter predicate
`isOverdue` holds exactly when the classification is Overdue. -/
theorem c2_isOverdue_matches_classify (o : Order) (now : Int)
    (hsun : phtDayOfWeek now ≠ 0) :
    isOverdue o now = true ↔ classify o now = some Status.overdue := by
  rw [isOverdue_iff_statusOf]
  simp [classify, hsun]

theorem c2_witness :
    isOverdue ⟨2, some 0, none, some 1, false⟩ 3000 = true ↔
      classify ⟨2, some 0, none, some 1, false⟩ 3000 = some Status.overdue :=
  c2_isOverdue_matches_classify ⟨2, some 0, none, some 1, false⟩ 3000 (by decide)

/-- Claim C4 counterexample: a metro order without a delivery date whose
effective approval instant is yesterday 14:00 (instant 2280 = day 1,
14:00), with now today before today's 15:00 cutoff (instant 3480 = day
2, 10:00, a Tuesday), is NOT DueToday: 14:00 yesterday is before
yesterday's 15:00 metro cutoff, so the order is Overdue (and counted in
both `overdue` and `shipToday`, once in `pending`). -/
theorem c4_counterexample :
    ¬ classify ⟨1, some 2280, none, none, false⟩ 3480 = some Status.dueToday ∧
    classify ⟨1, some 2280, none, none, false⟩ 3480 = some Status.overdue ∧
    getTileCounts [⟨1, some 2280, none, none, false⟩] 3480 = ⟨1, 1, 0, 0, 1⟩ := by
  decide

/-- Claim C4 (amended): on a non-Sunday now, a metro order with no
preferred delivery date whose effective approval instant is yesterday at
14:00 business time (which is before yesterday's 15:00 metro cutoff),
with now before today's 15:00 cutoff, is classified Overdue, counted in
both `overdue` and `shipToday`, and contributes exactly once to
`pending`. -/
theorem c4_metro_before_yesterday_cutoff (o : Order) (now : Int)
    (hsun : phtDayOfWeek now ≠ 0) (hprov : o.is_provincial = false)
    (hd : o.preferred_delivery_date = none)
    (he : getEffectiveApprovalDate o = some ((phtDayOf now - 1) * 1440 + 14 * 60))
    (_hnow : now < phtDayOf now * 1440 + 15 * 60) :
    classify o now = some Status.overdue ∧
    getTileCounts [o] now = ⟨1, 1, 0, 0, 1⟩ := by
  have hcut : cutoffMinutes o.is_provincial = 15 * 60 := by
    rw [hprov]; rfl
  have hst : statusOf o now = Status.overdue := by
    simp only [statusOf, hd, he, hcut]
    rw [if_pos (by omega)]
  constructor
  · simp [classify, hsun, hst]
  · have hco : countOrders now [o] = ⟨1, 1, 0, 0⟩ := by
      rw [countOrders_cons, hst]
      rfl
    simp [getTileCounts, hsun, hco]

theorem c4_witness :
    classify ⟨1, some 2280, none, none, false⟩ 3480 = some Status.overdue ∧
    getTileCounts [⟨1, some 2280, none, none, false⟩] 3480 = ⟨1, 1, 0, 0, 1⟩ :=
  c4_metro_before_yesterday_cutoff ⟨1, some 2280, none, none, false⟩ 3480
    (by decide) rfl rfl (by decide) (by decide)

theorem statusOf_delivery_today (o : Order) (now d : Int)
    (hd : o.preferred_delivery_date = some d) (hday : phtDayOf now = d) :
    statusOf o now =
      if d * 1440 + cutoffMinutes o.is_provincial < now then Status.overdue
      else Status.dueToday := by
  simp [statusOf, hd, hday]

theorem phtDayOf_base_add (D r : Int) (h0 : 0 ≤ r) (h1 : r < 1440) :
    phtDayOf (D * 1440 + r) = D := by
  unfold phtDayOf
  have h : D * 1440 + r = r + 1440 * D := by ring
  rw [h, Int.add_mul_ediv_left r D (by norm_num),
    Int.ediv_eq_zero_of_lt h0 h1, zero_add]

/-- Claim C5: a provincial order whose preferred delivery date is today
is DueToday at 11:59 business time, Overdue at 12:01, and not Overdue at
exactly the 12:00 cutoff (the comparison is strict). `D` is today's day
number and must not fall on a Sunday. -/
theorem c5_provincial_today_boundary (D : Int) (o : Order)
    (hprov : o.is_provincial = true) (hd : o.preferred_delivery_date = some D)
    (hsun : Int.emod D 7 ≠ 0) :
    classify o (D * 1440 + 719) = some Status.dueToday ∧
    classify o (D * 1440 + 721) = some Status.overdue ∧
    classify o (D * 1440 + 720) ≠ some Status.overdue := by
  have hcut : cutoffMinutes o.is_provincial = 12 * 60 := by
    rw [hprov]; rfl
  have hw : ∀ r : Int, 0 ≤ r → r < 1440 →
      phtDayOfWeek (D * 1440 + r) ≠ 0 := by
    intro r h0 h1
    unfold phtDayOfWeek
    rw [phtDayOf_base_add D r h0 h1]
    exact hsun
  have hst1 : statusOf o (D * 1440 + 719) = Status.dueToday := by
    have h1 := statusOf_delivery_today o (D * 1440 + 719) D hd
      (phtDayOf_base_add D 719 (by omega) (by omega))
    have hlt : ¬ (D * 1440 + 12 * 60 < D * 1440 + 719) := by omega
    rw [hcut, if_neg hlt] at h1
    exact h1
  have hst2 : statusOf o (D * 1440 + 721) = Status.overdue := by
    have h1 := statusOf_delivery_today o (D * 1440 + 721) D hd
      (phtDayOf_base_add D 721 (by omega) (by omega))
    have hlt : D * 1440 + 12 * 60 < D * 1440 + 721 := by omega
    rw [hcut, if_pos hlt] at h1
    exact h1
  have hst3 : statusOf o (D * 1440 + 720) = Status.dueToday := by
    have h1 := statusOf_delivery_today o (D * 1440 + 720) D hd
      (phtDayOf_base_add D 720 (by omega) (by omega))
    have hlt : ¬ (D * 1440 + 12 * 60 < D * 1440 + 720) := by omega
    rw [hcut, if_neg hlt] at h1
    exact h1
  refine ⟨?_, ?_, ?_⟩
  · simp [classify, hw 719 (by omega) (by omega), hst1]
  · simp [classify, hw 721 (by omega) (by omega), hst2]
  · simp [classify, hw 720 (by omega) (by omega), hst3]

theorem c5_witness :
    classify ⟨1, some 0, none, some 1, true⟩ (1 * 1440 + 719) = some Status.dueToday ∧
    classify ⟨1, some 0, none, some 1, true⟩ (1 * 1440 + 721) = some Status.overdue ∧
    classify ⟨1, some 0, none, some 1, true⟩ (1 * 1440 + 720) ≠ some Status.overdue :=
  c5_provincial_today_boundary 1 ⟨1, some 0, none, some 1, true⟩ rfl rfl (by decide)

/-- Claim C8 counterexample: an order with neither a valid `created_at`
nor a valid `approved_at` is not rejected and triggers no error: the
engine classifies it NewlyApproved (every invalid-timestamp comparison
is false) and counts it in `newOrders` and `pending`. -/
theorem c8_counterexample :
    classify ⟨7, none, none, none, false⟩ 3000 = some Status.newlyApproved ∧
    getTileCounts [⟨7, none, none, none, false⟩] 3000 = ⟨0, 0, 0, 1, 1⟩ := by
  decide

/-- Claim C8 (amended): the engine has no error condition at all; on a
non-Sunday now, an order with neither a valid creation nor a valid
approval timestamp (and no delivery date) is classified NewlyApproved
and counted once in `newOrders` and `pending` rather than being rejected
with an error. -/
theorem c8_no_error_malformed_is_new (o : Order) (now : Int)
    (hsun : phtDayOfWeek now ≠ 0) (hc : o.created_at = none)
    (ha : o.approved_at = none) (hd : o.preferred_delivery_date = none) :
    classify o now = some Status.newlyApproved ∧
    getTileCounts [o] now = ⟨0, 0, 0, 1, 1⟩ := by
  have he : getEffectiveApprovalDate o = none := by
    simp [getEffectiveApprovalDate, ha, hc]
  have hst : statusOf o now = Status.newlyApproved := by
    simp [statusOf, hd, he]
  constructor
  · simp [classify, hsun, hst]
  · have hco : countOrders now [o] = ⟨0, 0, 0, 1⟩ := by
      rw [countOrders_cons, hst]
      rfl
    simp [getTileCounts, hsun, hco]

theorem c8_witness :
    classify ⟨7, none, none, none, false⟩ 3000 = some Status.newlyApproved ∧
    getTileCounts [⟨7, none, none, none, false⟩] 3000 = ⟨0, 0, 0, 1, 1⟩ :=
  c8_no_error_malformed_is_new ⟨7, none, none, none, false⟩ 3000
    (by decide) rfl rfl rfl

/-- Claim C10: the filter predicate applies no Sunday exclusion.  On a
Sunday now, an order with a past delivery date and an order without a
delivery date whose effective approval is before yesterday's cutoff both
still satisfy `isOverdue`, so the filtered overdue badge count is
non-zero while the aggregate tile counts for the same now are all
zero. -/
theorem c10_isOverdue_ignores_sunday (now : Int) (o1 o2 : Order) (d a : Int)
    (hsun : phtDayOfWeek now = 0)
    (h1 : o1.preferred_delivery_date = some d) (hdlt : d < phtDayOf now)
    (h2 : o2.preferred_delivery_date = none)
    (h3 : getEffectiveApprovalDate o2 = some a)
    (ha : a < (phtDayOf now - 1) * 1440 + cutoffMinutes o2.is_provincial) :
    isOverdue o1 now = true ∧ isOverdue o2 now = true ∧
    getTileCounts [o1, o2] now = ⟨0, 0, 0, 0, 0⟩ ∧
    0 < overdueCount [o1, o2] now := by
  have hi1 : isOverdue o1 now = true := by
    simp [isOverdue, h1, hdlt]
  have hi2 : isOverdue o2 now = true := by
    simp [isOverdue, h2, h3, ha]
  refine ⟨hi1, hi2, ?_, ?_⟩
  · simp [getTileCounts, hsun]
  · simp [overdueCount, hi1, hi2]

theorem c10_witness :
    isOverdue ⟨1, some 0, none, some (-1), false⟩ 0 = true ∧
    isOverdue ⟨2, some (-3000), none, none, false⟩ 0 = true ∧
    getTileCounts [⟨1, some 0, none, some (-1), false⟩,
      ⟨2, some (-3000), none, none, false⟩] 0 = ⟨0, 0, 0, 0, 0⟩ ∧
    0 < overdueCount [⟨1, some 0, none, some (-1), false⟩,
      ⟨2, some (-3000), none, none, false⟩] 0 :=
  c10_isOverdue_ignores_sunday 0 ⟨1, some 0, none, some (-1), false⟩
    ⟨2, some (-3000), none, none, false⟩ (-1) (-3000)
    (by decide) rfl (by decide) rfl (by decide) (by decide)
